import Mathlib

/-!  Verification of the RHESSys integrated hydrologic routing core
(src/rhessys/hydro/hydro_routing.c) together with
compute_potential_snow_interception
(src/rhessys/hydro/compute_potential_snow_interception.c).

The C double-precision computations are shallowly embedded over `ℚ`
(exact real arithmetic).  The transcendental library calls `pow(x, 2/3)`,
`sqrt` and `exp`, and the external helper `compute_z_final`, enter the
code only through values they return, so they are abstracted as explicit
function parameters of the embedding; every concrete instance used below
only evaluates them at points where the chosen rational stand-in agrees
with the real function (noted at each instance).

The constant `ZERO` comes from the header rhessys.h, which is not among
the source files; it is a small non-negative roundoff threshold and is
kept as an explicit parameter (written `Z` in context structures), with
`0 ≤ Z` as a hypothesis where it matters.

C stack arrays that the code leaves partially unwritten (`dH2Odt`,
`rtefac`, `gamma`, the inverted index tables) are modelled as total
functions equal to `0` outside the written range.  Raw `unsigned`
patch-subscripts are modelled as `ℕ` and array reads through them go
through the guarded lookups `vecGet`/`matGet` (out-of-range reads are
undefined behaviour in C; the concrete runs below stay in range).  -/

namespace RHESSys

/-- MAXNEIGHBOR, hydro_routing.c line 100. -/
def MAXNEIGHBOR : ℕ := 16

/-- EPSILON, roundoff tolerance in seconds, hydro_routing.c line 103. -/
def EPSILON : ℚ := 1/100000

/-- CPLMAX, max hydro coupling time step in seconds, set in
init_hydro_routing (line 221). -/
def CPLMAX : ℚ := 1800

/-- COUMAX, max Courant number, set in init_hydro_routing (line 222). -/
def COUMAX : ℚ := 1/5

/-- C `lround`: round to nearest integer, halfway cases away from zero. -/
def cLround (q : ℚ) : ℤ := if 0 ≤ q then ⌊q + 1/2⌋ else ⌈q - 1/2⌉

/-- C conversion of a `double` to `int`: truncation toward zero. -/
def cTrunc (q : ℚ) : ℤ := if 0 ≤ q then ⌊q⌋ else ⌈q⌉

/-- Guarded read of a dense column through a raw `unsigned` subscript.
Out-of-range access is UB in C; it is modelled as `0`. -/
def vecGet {n : ℕ} (v : Fin n → ℚ) (m : ℕ) : ℚ :=
  if h : m < n then v ⟨m, h⟩ else 0

/-- Guarded read of a row-indexed working matrix through a raw
`unsigned` row subscript; out-of-range rows read as `0`. -/
def matGet {n : ℕ} (f : Fin n → ℕ → ℚ) (k j : ℕ) : ℚ :=
  if h : k < n then f ⟨k, h⟩ j else 0

/-- The `normal` quantile table, hydro_routing.c line 188. -/
def normal : Fin 9 → ℚ :=
  ![0, 253/1000, 524/1000, 842/1000, 1283/1000,
    -253/1000, -524/1000, -842/1000, -1283/1000]

/-- The `perc` weight table, hydro_routing.c line 189. -/
def perc : Fin 9 → ℚ := ![2/10, 1/10, 1/10, 1/10, 1/10, 1/10, 1/10, 1/10, 1/10]

/-- The index expression of hydro_routing.c line 436:
`min( (int)nsoil, (int)lround( sat_deficit + normal[m]*pscale )/dzsoil )`.
The parenthesis of `lround` closes before the division, so the C code
rounds the raw argument first and divides the resulting integer by
`dzsoil` afterwards; the `min` macro `((a)<(b)?(a):(b))` then compares
`(int)nsoil` with that `double` quotient, and the assignment to the
`int` variable `n` truncates toward zero. -/
def transIdx (nsoil : ℕ) (x dz : ℚ) : ℤ :=
  let b : ℚ := (cLround x : ℚ) / dz
  if (nsoil : ℚ) < b then (nsoil : ℤ) else cTrunc b

/-- Transmissivity of one patch, sub_routing pass 1
(hydro_routing.c lines 428-445). -/
def transPatch (pscale satdef dz : ℚ) (nsoil : ℕ) (profile : ℤ → ℚ) : ℚ :=
  if 0 < pscale then
    ∑ m : Fin 9, profile (transIdx nsoil (satdef + normal m * pscale) dz) * perc m
  else
    profile (min (nsoil : ℤ) (cLround (satdef / dz)))

/-- Modelled from the spec (§4.2 Pass 1), for comparison with `transPatch`:
`n_m = min(nsoil, round((sat_deficit + normal[m]*pscale)/dzsoil))`, the
quotient by `dzsoil` being taken before rounding. -/
def transPatch_spec (pscale satdef dz : ℚ) (nsoil : ℕ) (profile : ℤ → ℚ) : ℚ :=
  if 0 < pscale then
    ∑ m : Fin 9, profile (min (nsoil : ℤ) (cLround ((satdef + normal m * pscale) / dz))) * perc m
  else
    profile (min (nsoil : ℤ) (cLround (satdef / dz)))

/-!  ###  init_hydro_routing, serial phase B (lines 361-397)

The parallel phase A computes the per-patch columns and the normalized
surface outflow fractions `dfrac`; its `gfac`/`dfrac` statements read
`plist[k]` with `k` unassigned (UB, noted in the spec §9a), so phase B is
modelled as a function of the surface drainage lists (`dcount`, the
neighbour table `nbr`) and of `dfrac` taken as given data.  -/

/-- Result of the serial inversion of the surface-routing table. -/
structure SfcMesh (n : ℕ) where
  sfccnti : Fin n → ℕ
  sfcndxi : Fin n → ℕ → ℕ
  sfcgam : Fin n → ℕ → ℚ
  overflow : Bool

/-- Body of the inner loop `for j` of lines 368-384, entered at subscript
`j`.  On success it appends and `break`s (so the loop never advances to
`j+1`); on overflow the C code prints to stderr and exits, modelled by
the `overflow` flag. -/
def sfc_invert_row {n : ℕ} (dcount : Fin n → ℕ) (nbr : Fin n → ℕ → Fin n)
    (dfrac : Fin n → ℕ → ℚ) (st : SfcMesh n) (i : Fin n) (j : ℕ) : SfcMesh n :=
  if j < dcount i then
    let k := nbr i j
    if st.sfccnti k < MAXNEIGHBOR - 1 then
      let m := st.sfccnti k
      { st with
        sfccnti := Function.update st.sfccnti k (st.sfccnti k + 1),
        sfcndxi := Function.update st.sfcndxi k (Function.update (st.sfcndxi k) m j),
        sfcgam := Function.update st.sfcgam k (Function.update (st.sfcgam k) m (dfrac k j)) }
    else { st with overflow := true }
  else st

/-- The serial loop of lines 363-384 inverting the surface-routing
table: the rows are processed in patch order, each row starting at
`j = 0`.  `sfccnti` starts at `0` (line 328); the unwritten entries of
`sfcndxi`/`sfcgam` are modelled as `0`. -/
def init_sfc_invert (n : ℕ) (dcount : Fin n → ℕ) (nbr : Fin n → ℕ → Fin n)
    (dfrac : Fin n → ℕ → ℚ) : SfcMesh n :=
  (List.finRange n).foldl (fun st i => sfc_invert_row dcount nbr dfrac st i 0)
    ⟨fun _ => 0, fun _ _ => 0, fun _ _ => 0, false⟩

/-- Result of the serial inversion of the subsurface-routing table
(lines 386-397). -/
structure SubMesh (n : ℕ) where
  subcnti : Fin n → ℕ
  subndxi : Fin n → ℕ → ℕ

/-- Row `i` of the subsurface inversion (lines 388-395): for each
outflow edge `j` of `i` with receiver `k = subndxo[i][j]` the code
computes `m = MAXNEIGHBOR*k + subcnti[k]` (unused), then stores
`subndxi[k][j] = i` — at column `j`, the source's outflow subscript,
not at column `subcnti[k]` — and increments `subcnti[k]`. -/
def sub_invert_row {n : ℕ} (subcnto : Fin n → ℕ) (subndxo : Fin n → ℕ → Fin n)
    (st : SubMesh n) (i : Fin n) : SubMesh n :=
  (List.range (subcnto i)).foldl (fun st j =>
    let k := subndxo i j
    { st with
      subndxi := Function.update st.subndxi k (Function.update (st.subndxi k) j (i : ℕ)),
      subcnti := Function.update st.subcnti k (st.subcnti k + 1) }) st

/-- The serial loop building the subsurface inflow table. -/
def init_sub_invert (n : ℕ) (subcnto : Fin n → ℕ)
    (subndxo : Fin n → ℕ → Fin n) : SubMesh n :=
  (List.finRange n).foldl (sub_invert_row subcnto subndxo) ⟨fun _ => 0, fun _ _ => 0⟩

/-!  ###  sub_routing (lines 406-551)  -/

/-- The global working state read by sub_routing: the per-patch columns
filled by init_hydro_routing and by the driver's copy-in, the
subsurface drainage matrices, and the roundoff threshold `Z` (the
header constant `ZERO`). -/
structure SubIn (n : ℕ) where
  waterz : Fin n → ℚ
  totH2O : Fin n → ℚ
  totNO3 : Fin n → ℚ
  totNH4 : Fin n → ℚ
  totDOC : Fin n → ℚ
  totDON : Fin n → ℚ
  psize : Fin n → ℚ
  pscale : Fin n → ℚ
  dzsoil : Fin n → ℚ
  satdef : Fin n → ℚ
  nsoil : Fin n → ℕ
  transProfile : Fin n → ℤ → ℚ
  subcnto : Fin n → ℕ
  subndxo : Fin n → ℕ → Fin n
  subdist : Fin n → ℕ → ℚ
  perimf : Fin n → ℕ → ℚ
  subcnti : Fin n → ℕ
  subndxi : Fin n → ℕ → ℕ
  Z : ℚ

/-- Pass 1 (lines 428-445): `trans[i]`. -/
def subTrans {n : ℕ} (c : SubIn n) (i : Fin n) : ℚ :=
  transPatch (c.pscale i) (c.satdef i) (c.dzsoil i) (c.nsoil i) (c.transProfile i)

/-- `slope = (waterz[i] - waterz[kk]) / subdist[i][j]` (line 470). -/
def subSlope {n : ℕ} (c : SubIn n) (i : Fin n) (j : ℕ) : ℚ :=
  (c.waterz i - c.waterz (c.subndxo i j)) / c.subdist i j

/-- `vel = slope * trans[i] / psize[i]` in cells/sec (line 474). -/
def subVel {n : ℕ} (c : SubIn n) (i : Fin n) (j : ℕ) : ℚ :=
  subSlope c i j * subTrans c i / c.psize i

/-- `dH2Odt[i][j] = perimf[i][j] * zz * vel` with
`zz = 0.5*(z1+z2)` when `slope > ZERO`, else `0` (lines 471-484);
entries beyond `subcnto[i]` are never written and are modelled as `0`. -/
def subDH2Odt {n : ℕ} (c : SubIn n) (i : Fin n) (j : ℕ) : ℚ :=
  if j < c.subcnto i then
    if c.Z < subSlope c i j then
      c.perimf i j * (1/2 * (c.waterz i + c.waterz (c.subndxo i j))) * subVel c i j
    else 0
  else 0

/-- `gamma[i][j] = slope` when `slope > ZERO`, else `0`
(lines 475 and 483), before normalization. -/
def subGammaRaw {n : ℕ} (c : SubIn n) (i : Fin n) (j : ℕ) : ℚ :=
  if j < c.subcnto i then
    if c.Z < subSlope c i j then subSlope c i j else 0
  else 0

/-- `gsum`, the row total of `gamma[i][:]` (line 477). -/
def subGsum {n : ℕ} (c : SubIn n) (i : Fin n) : ℚ :=
  ∑ j ∈ Finset.range (c.subcnto i), subGammaRaw c i j

/-- `gamma[i][:]` after the conditional normalization of lines 487-494. -/
def subGamma {n : ℕ} (c : SubIn n) (i : Fin n) (j : ℕ) : ℚ :=
  if c.Z < subGsum c i then (1 / subGsum c i) * subGammaRaw c i j
  else subGammaRaw c i j

/-- `outH2O[i] = wsum`, the row total of `dH2Odt[i][:]` (lines 478, 486). -/
def subOutH2O {n : ℕ} (c : SubIn n) (i : Fin n) : ℚ :=
  ∑ j ∈ Finset.range (c.subcnto i), subDH2Odt c i j

/-- The Courant reduction: `cmax` starts at
`COUMAX / min(tstep, CPLMAX)` (line 447) and takes the max with every
velocity of an edge with `slope > ZERO` (line 479). -/
def sub_cmax {n : ℕ} (c : SubIn n) (tstep : ℚ) : ℚ :=
  (List.finRange n).foldl (fun acc i =>
    (List.range (c.subcnto i)).foldl (fun a j =>
      if c.Z < subSlope c i j then
        (if a < subVel c i j then subVel c i j else a)
      else a) acc)
    (COUMAX / min tstep CPLMAX)

/-- `*substep = dt = min( COUMAX / cmax , tstep )` (line 497). -/
def sub_substep {n : ℕ} (c : SubIn n) (tstep : ℚ) : ℚ :=
  min (COUMAX / sub_cmax c tstep) tstep

/-- `fac = dt / totH2O[i]` (line 508). -/
def subFac {n : ℕ} (c : SubIn n) (tstep : ℚ) (i : Fin n) : ℚ :=
  sub_substep c tstep / c.totH2O i

/-- `outfac[i] = fac * outH2O[i]` (line 509). -/
def subOutfac {n : ℕ} (c : SubIn n) (tstep : ℚ) (i : Fin n) : ℚ :=
  subFac c tstep i * subOutH2O c i

/-- `rtefac[i][j] = fac * gamma[i][j] * dH2Odt[i][j]` (line 513);
entries beyond `subcnto[i]` are never written and are modelled as `0`. -/
def subRtefac {n : ℕ} (c : SubIn n) (tstep : ℚ) (i : Fin n) (j : ℕ) : ℚ :=
  if j < c.subcnto i then subFac c tstep i * subGamma c i j * subDH2Odt c i j
  else 0

/-- `latH2O[i]` from pass 4 (lines 526-547):
`dH2O = -outH2O[i]*dt + Σ_j dH2Odt[subndxi[i][j]][j]*dt`. -/
def latH2O {n : ℕ} (c : SubIn n) (tstep : ℚ) (i : Fin n) : ℚ :=
  -subOutH2O c i * sub_substep c tstep +
    ∑ j ∈ Finset.range (c.subcnti i),
      matGet (subDH2Odt c) (c.subndxi i j) j * sub_substep c tstep

/-- The lateral solute delta of pass 4, shared shape of lines 529-540:
`dX = -outfac[i]*totX[i] + Σ_j rtefac[subndxi[i][j]][j] * totX[i]`
(the inflow term multiplies the receiver's own concentration, exactly
as in the source). -/
def latSol {n : ℕ} (c : SubIn n) (tstep : ℚ) (totX : Fin n → ℚ) (i : Fin n) : ℚ :=
  -subOutfac c tstep i * totX i +
    ∑ j ∈ Finset.range (c.subcnti i),
      matGet (subRtefac c tstep) (c.subndxi i j) j * totX i

/-- `latNO3[i]` (lines 529, 537, 543). -/
def latNO3 {n : ℕ} (c : SubIn n) (tstep : ℚ) (i : Fin n) : ℚ :=
  latSol c tstep c.totNO3 i

/-- `latNH4[i]` (lines 530, 538, 544). -/
def latNH4 {n : ℕ} (c : SubIn n) (tstep : ℚ) (i : Fin n) : ℚ :=
  latSol c tstep c.totNH4 i

/-- `latDON[i]` (lines 531, 539, 545). -/
def latDON {n : ℕ} (c : SubIn n) (tstep : ℚ) (i : Fin n) : ℚ :=
  latSol c tstep c.totDON i

/-- `latDOC[i]` (lines 532, 540, 546). -/
def latDOC {n : ℕ} (c : SubIn n) (tstep : ℚ) (i : Fin n) : ℚ :=
  latSol c tstep c.totDOC i

/-!  ###  sfc_routing (lines 584-764)  -/

/-- The time-independent context read by sfc_routing: per-patch columns
from init_hydro_routing, the surface inflow matrix, the canopy rates
(zero-filled by can_routing in the current scope), the abstracted
library functions, and the header constant `ZERO` as `Z`.
`pow23` stands for `pow(x, 2.0/3.0)`, `sqrtQ` for `sqrt`, `expQ` for
`exp`. -/
structure SfcCtx (n : ℕ) where
  retdep : Fin n → ℚ
  sfcknl : Fin n → ℚ
  rootzs : Fin n → ℚ
  ksatv : Fin n → ℚ
  ksat_0 : Fin n → ℚ
  mz_v : Fin n → ℚ
  por_0 : Fin n → ℚ
  por_d : Fin n → ℚ
  psiair : Fin n → ℚ
  sat_deficit_z : Fin n → ℚ
  sfccnti : Fin n → ℕ
  sfcndxi : Fin n → ℕ → ℕ
  sfcgam : Fin n → ℕ → ℚ
  canH2O : Fin n → ℚ
  canNO3 : Fin n → ℚ
  canNH4 : Fin n → ℚ
  canDOC : Fin n → ℚ
  canDON : Fin n → ℚ
  pow23 : ℚ → ℚ
  sqrtQ : ℚ → ℚ
  expQ : ℚ → ℚ
  Z : ℚ

/-- The mutable working state of sfc_routing: surface heads and
chemistry, and the infiltration accumulators. -/
structure SfcSt (n : ℕ) where
  sfcH2O : Fin n → ℚ
  sfcNO3 : Fin n → ℚ
  sfcNH4 : Fin n → ℚ
  sfcDOC : Fin n → ℚ
  sfcDON : Fin n → ℚ
  infH2O : Fin n → ℚ
  infNO3 : Fin n → ℚ
  infNH4 : Fin n → ℚ
  infDOC : Fin n → ℚ
  infDON : Fin n → ℚ

/-- `hh = sfcH2O[i] - retdep[i]` (line 635). -/
def sfcHH {n : ℕ} (ctx : SfcCtx n) (st : SfcSt n) (i : Fin n) : ℚ :=
  st.sfcH2O i - ctx.retdep i

/-- `vel = sfcknl[i] * pow(hh, 2/3)` (line 638). -/
def sfcVel {n : ℕ} (ctx : SfcCtx n) (st : SfcSt n) (i : Fin n) : ℚ :=
  ctx.sfcknl i * ctx.pow23 (sfcHH ctx st i)

/-- `outH2O[i] = vel * hh` when `hh > 0`, else `0` (lines 636-653). -/
def sfcOutH2O {n : ℕ} (ctx : SfcCtx n) (st : SfcSt n) (i : Fin n) : ℚ :=
  if 0 < sfcHH ctx st i then sfcVel ctx st i * sfcHH ctx st i else 0

/-- `outX[i] = vel * div * sfcX[i]` with `div = hh/sfcH2O[i]` when
`hh > 0`, else `0` (lines 639-653); shared shape of the four solutes. -/
def sfcOutSol {n : ℕ} (ctx : SfcCtx n) (st : SfcSt n) (sfcX : Fin n → ℚ) (i : Fin n) : ℚ :=
  if 0 < sfcHH ctx st i then
    sfcVel ctx st i * (sfcHH ctx st i / st.sfcH2O i) * sfcX i
  else 0

/-- The Courant reduction of the drainage-rate loop: `cmax` starts at
`COUMAX / tstep` (line 619) and takes the max with every velocity of a
patch with `hh > 0` (line 645). -/
def sfc_cmax {n : ℕ} (ctx : SfcCtx n) (tstep : ℚ) (st : SfcSt n) : ℚ :=
  (List.finRange n).foldl (fun acc i =>
    if 0 < sfcHH ctx st i then
      (if acc < sfcVel ctx st i then sfcVel ctx st i else acc)
    else acc)
    (COUMAX / tstep)

/-- `dt = min( COUMAX / cmax , tstep - t )` (line 656). -/
def sfc_dt {n : ℕ} (ctx : SfcCtx n) (tstep t : ℚ) (st : SfcSt n) : ℚ :=
  min (COUMAX / sfc_cmax ctx tstep st) (tstep - t)

/-- Outcome of the infiltration transfer block, lines 744-754. -/
structure InfilOut where
  sfcH2O : ℚ
  sfcNO3 : ℚ
  sfcNH4 : ℚ
  sfcDOC : ℚ
  sfcDON : ℚ
  infH2O : ℚ
  infNO3 : ℚ
  infNH4 : ℚ
  infDOC : ℚ
  infDON : ℚ

/-- The update block of lines 744-754: `afac = delta / sfcH2O[i]` is the
new-infiltration fraction, computed before the water is moved; then
`delta` moves from the surface head to `infH2O` and the fraction `afac`
of each surface solute moves to its infiltration pool. -/
def infilTransfer (delta sfcH2O sfcNO3 sfcNH4 sfcDOC sfcDON
    infH2O infNO3 infNH4 infDOC infDON : ℚ) : InfilOut :=
  let afac := delta / sfcH2O
  { sfcH2O := sfcH2O - delta
    sfcNO3 := sfcNO3 - afac * sfcNO3
    sfcNH4 := sfcNH4 - afac * sfcNH4
    sfcDOC := sfcDOC - afac * sfcDOC
    sfcDON := sfcDON - afac * sfcDON
    infH2O := infH2O + delta
    infNO3 := infNO3 + afac * sfcNO3
    infNH4 := infNH4 + afac * sfcNH4
    infDOC := infDOC + afac * sfcDOC
    infDON := infDON + afac * sfcDON }

/-- The net inflow rate `sum·` accumulated in lines 676-694:
`-out[i] + Σ_j sfcgam[i][j]*out[sfcndxi[i][j]] + can[i]`. -/
def sfcSum {n : ℕ} (ctx : SfcCtx n) (out : Fin n → ℚ) (can : Fin n → ℚ) (i : Fin n) : ℚ :=
  -out i + (∑ j ∈ Finset.range (ctx.sfccnti i), ctx.sfcgam i j * vecGet out (ctx.sfcndxi i j))
    + can i

/-- The per-patch body of the update-and-infiltration loop
(lines 671-758) at time step `dt`: advect the surface state, then run
the Green-Ampt infiltration branch when
`rootzs[i] < 1.0 && ksat_0[i] > ZERO`. -/
def sfcPatchNew {n : ℕ} (ctx : SfcCtx n) (dt : ℚ) (st : SfcSt n) (i : Fin n) : InfilOut :=
  let h1 := st.sfcH2O i + sfcSum ctx (sfcOutH2O ctx st) ctx.canH2O i * dt
  let no3 := st.sfcNO3 i + sfcSum ctx (sfcOutSol ctx st st.sfcNO3) ctx.canNO3 i * dt
  let nh4 := st.sfcNH4 i + sfcSum ctx (sfcOutSol ctx st st.sfcNH4) ctx.canNH4 i * dt
  let doc := st.sfcDOC i + sfcSum ctx (sfcOutSol ctx st st.sfcDOC) ctx.canDOC i * dt
  let don := st.sfcDON i + sfcSum ctx (sfcOutSol ctx st st.sfcDON) ctx.canDON i * dt
  if ctx.rootzs i < 1 ∧ ctx.Z < ctx.ksat_0 i then
    let z := ctx.sat_deficit_z i
    let ksat := if ctx.Z < ctx.mz_v i
      then ctx.mz_v i * ctx.ksat_0 i * (1 - ctx.expQ (-z / ctx.mz_v i)) / z
      else ctx.ksat_0 i
    let poro := if ctx.por_d i < 9999/10
      then ctx.por_d i * ctx.por_0 i * (1 - ctx.expQ (-z / ctx.por_d i)) / z
      else ctx.por_0 i
    let theta := ctx.rootzs i * poro
    let psi_f := 76/100 * ctx.psiair i
    let sp := ctx.sqrtQ (2 * ksat * psi_f)
    let intensity := h1 / dt
    let tp := if ksat < intensity
      then ksat * psi_f * (poro - theta) / (intensity * (intensity - ksat))
      else dt
    let delta := if dt ≤ tp then ctx.ksatv i * h1
      else
        let afac := ctx.sqrtQ ksat
        let afac := afac * afac * afac / 3
        let d0 := sp * ctx.sqrtQ (dt - tp) + afac + tp * h1
        ctx.ksatv i * (if d0 < h1 then d0 else h1)
    infilTransfer delta h1 no3 nh4 doc don
      (st.infH2O i) (st.infNO3 i) (st.infNH4 i) (st.infDOC i) (st.infDON i)
  else
    { sfcH2O := h1, sfcNO3 := no3, sfcNH4 := nh4, sfcDOC := doc, sfcDON := don
      infH2O := st.infH2O i, infNO3 := st.infNO3 i, infNH4 := st.infNH4 i
      infDOC := st.infDOC i, infDON := st.infDON i }

/-- One iteration of the internal timestep loop (lines 617-760), using
the snapshot `st` for all reads (the parallel loops read the previous
state and each patch writes only its own entries). -/
def sfcStep {n : ℕ} (ctx : SfcCtx n) (tstep t : ℚ) (st : SfcSt n) : SfcSt n :=
  let dt := sfc_dt ctx tstep t st
  { sfcH2O := fun i => (sfcPatchNew ctx dt st i).sfcH2O
    sfcNO3 := fun i => (sfcPatchNew ctx dt st i).sfcNO3
    sfcNH4 := fun i => (sfcPatchNew ctx dt st i).sfcNH4
    sfcDOC := fun i => (sfcPatchNew ctx dt st i).sfcDOC
    sfcDON := fun i => (sfcPatchNew ctx dt st i).sfcDON
    infH2O := fun i => (sfcPatchNew ctx dt st i).infH2O
    infNO3 := fun i => (sfcPatchNew ctx dt st i).infNO3
    infNH4 := fun i => (sfcPatchNew ctx dt st i).infNH4
    infDOC := fun i => (sfcPatchNew ctx dt st i).infDOC
    infDON := fun i => (sfcPatchNew ctx dt st i).infDON }

/-- The internal timestep loop `for ( t = 0.0 ; t < tfinal ; t+=dt )`
with `tfinal = tstep - EPSILON` (lines 615-760), run with explicit
fuel (the C loop's trip count is data dependent). -/
def sfcLoop {n : ℕ} (ctx : SfcCtx n) (tstep : ℚ) : ℕ → ℚ → SfcSt n → SfcSt n
  | 0, _, st => st
  | fuel + 1, t, st =>
    if t < tstep - EPSILON then
      sfcLoop ctx tstep fuel (t + sfc_dt ctx tstep t st) (sfcStep ctx tstep t st)
    else st

/-- sfc_routing: zero-fill the infiltration accumulators
(lines 604-611), then run the internal timestep loop from `t = 0`. -/
def sfc_routing {n : ℕ} (ctx : SfcCtx n) (fuel : ℕ) (tstep : ℚ) (st : SfcSt n) : SfcSt n :=
  sfcLoop ctx tstep fuel 0
    { st with
      infH2O := fun _ => 0, infNO3 := fun _ => 0, infNH4 := fun _ => 0
      infDOC := fun _ => 0, infDON := fun _ => 0 }

/-!  ###  sub_vertical (lines 785-839)  -/

/-- The per-patch values read and written by sub_vertical.  The loop
body touches each patch independently. -/
structure VertP where
  totH2O : ℚ
  totNO3 : ℚ
  totNH4 : ℚ
  totDOC : ℚ
  totDON : ℚ
  infH2O : ℚ
  infNO3 : ℚ
  infNH4 : ℚ
  infDOC : ℚ
  infDON : ℚ
  latH2O : ℚ
  latNO3 : ℚ
  latNH4 : ℚ
  latDOC : ℚ
  latDON : ℚ
  sfcH2O : ℚ
  sfcNO3 : ℚ
  sfcNH4 : ℚ
  sfcDOC : ℚ
  sfcDON : ℚ
  waterz : ℚ
  capH2O : ℚ
  z : ℚ
  por_0 : ℚ
  por_d : ℚ
  dzsoil : ℚ

/-- The loop body of sub_vertical (lines 802-835): add infiltration and
lateral inflow to the column totals; if the column water exceeds the
field capacity `capH2O`, spill the excess fraction
`fac = (totH2O-capH2O)/totH2O` of every column pool onto the surface
and put the water table at the ground surface; otherwise recompute the
water-table elevation through the external `compute_z_final`
(abstracted as `czf p_0 p soil_depth z_initial delta_water`; the
`verbose` flag is dropped). -/
def sub_vertical_patch (czf : ℚ → ℚ → ℚ → ℚ → ℚ → ℚ) (p : VertP) : VertP :=
  let totH2O := p.totH2O + p.infH2O + p.latH2O
  let totNO3 := p.totNO3 + p.infNO3 + p.latNO3
  let totNH4 := p.totNH4 + p.infNH4 + p.latNH4
  let totDON := p.totDON + p.infDON + p.latDON
  let totDOC := p.totDOC + p.infDOC + p.latDOC
  if p.capH2O < totH2O then
    let fac := (totH2O - p.capH2O) / totH2O
    { p with
      sfcH2O := p.sfcH2O + fac * totH2O
      sfcNO3 := p.sfcNO3 + fac * totNO3
      sfcNH4 := p.sfcNH4 + fac * totNH4
      sfcDON := p.sfcDON + fac * totDON
      sfcDOC := p.sfcDOC + fac * totDOC
      totH2O := totH2O - fac * totH2O
      totNO3 := totNO3 - fac * totNO3
      totNH4 := totNH4 - fac * totNH4
      totDON := totDON - fac * totDON
      totDOC := totDOC - fac * totDOC
      waterz := p.z }
  else
    let dH2O := totH2O - p.capH2O
    { p with
      totH2O := totH2O, totNO3 := totNO3, totNH4 := totNH4
      totDON := totDON, totDOC := totDOC
      waterz := p.z - czf p.por_0 p.por_d p.dzsoil 0 dH2O }

/-!  ###  hydro_routing driver (lines 844-928)  -/

/-- The coupling loop of lines 888-899:
`for( t = extstep; t > EPSILON; t-=substep )`.  Each iteration's
`substep` is the value sub_routing writes for the current remaining
budget; since the remaining budget strictly decreases along a run, a
run's substeps are a function `f` of the remaining budget.  Returns
(iterations run, final remaining `t`, sum of the substeps), with
explicit fuel. -/
def couplingLoop (f : ℚ → ℚ) : ℕ → ℚ → ℕ × ℚ × ℚ
  | 0, t => (0, t, 0)
  | fuel + 1, t =>
    if EPSILON < t then
      let r := couplingLoop f fuel (t - f t)
      (r.1 + 1, r.2.1, f t + r.2.2)
    else (0, t, 0)

/-- The patch fields copied by the driver (lines 866-883 and 910-925). -/
structure PatchSt where
  z : ℚ
  field_capacity : ℚ
  detention_store : ℚ
  surface_NO3 : ℚ
  surface_NH4 : ℚ
  surface_DOC : ℚ
  surface_DON : ℚ
  sat_deficit : ℚ
  sat_deficit_z : ℚ
  soil_ns_nitrate : ℚ
  soil_ns_sminn : ℚ
  soil_ns_DON : ℚ
  soil_cs_DOC : ℚ

/-- The per-patch working values filled by the driver's copy-in. -/
structure WorkSt where
  sfcH2O : ℚ
  sfcNO3 : ℚ
  sfcNH4 : ℚ
  sfcDOC : ℚ
  sfcDON : ℚ
  waterz : ℚ
  totH2O : ℚ
  totNO3 : ℚ
  totNH4 : ℚ
  totDON : ℚ
  totDOC : ℚ

/-- Copy-in (lines 866-883).  `Z` is the header constant `ZERO`:
`waterz = z - ( sat_deficit_z > ZERO ? sat_deficit_z : ZERO )`. -/
def copyIn (Z : ℚ) (p : PatchSt) : WorkSt :=
  { sfcH2O := p.detention_store
    sfcNO3 := p.surface_NO3
    sfcNH4 := p.surface_NH4
    sfcDOC := p.surface_DOC
    sfcDON := p.surface_DON
    waterz := p.z - (if Z < p.sat_deficit_z then p.sat_deficit_z else Z)
    totH2O := p.field_capacity - p.sat_deficit
    totNO3 := p.soil_ns_nitrate
    totNH4 := p.soil_ns_sminn
    totDON := p.soil_ns_DON
    totDOC := p.soil_cs_DOC }

/-- Copy-back (lines 910-925). -/
def copyBack (p : PatchSt) (w : WorkSt) : PatchSt :=
  { p with
    detention_store := w.sfcH2O
    surface_NO3 := w.sfcNO3
    surface_NH4 := w.sfcNH4
    surface_DOC := w.sfcDOC
    surface_DON := w.sfcDON
    sat_deficit_z := p.z - w.waterz
    sat_deficit := p.field_capacity - w.totH2O
    soil_ns_nitrate := w.totNO3
    soil_ns_sminn := w.totNH4
    soil_ns_DON := w.totDON
    soil_cs_DOC := w.totDOC }

/-- hydro_routing with `extstep ≤ EPSILON`: the coupling loop guard
`t > EPSILON` (line 888) fails immediately, so the driver is exactly
copy-in followed by copy-back on every patch. -/
def hydro_routing_zero (Z : ℚ) (p : PatchSt) : PatchSt :=
  copyBack p (copyIn Z p)

/-!  ###  compute_potential_snow_interception
(compute_potential_snow_interception.c lines 43-83)  -/

/-- The canopy-stratum fields read by
compute_potential_snow_interception. -/
structure CanopyStratum where
  gap_fraction : ℚ
  all_pai : ℚ
  specific_snow_capacity : ℚ
  snow_stored : ℚ
  veg_type : ℤ

/-- compute_potential_snow_interception (lines 43-83).  `NON_VEG` is a
vegetation-type code from the headers (not among the sources); only the
comparison `veg_type != NON_VEG` matters, so it is a parameter. -/
def compute_potential_snow_interception (NON_VEG : ℤ) (snow : ℚ)
    (stratum : CanopyStratum) : ℚ :=
  let interception_coef := 1 - stratum.gap_fraction
  let potential_interception :=
    if stratum.veg_type ≠ NON_VEG then
      min (interception_coef * snow)
        (stratum.all_pai * stratum.specific_snow_capacity - stratum.snow_stored)
    else
      min snow (stratum.specific_snow_capacity - stratum.snow_stored)
  max potential_interception 0

/-!  ###  Helper lemmas  -/

/-- A left fold whose step never decreases the accumulator is bounded
below by its initial value. -/
lemma foldl_init_le {α : Type} (f : ℚ → α → ℚ) (h : ∀ a x, a ≤ f a x) :
    ∀ (l : List α) (init : ℚ), init ≤ l.foldl f init
  | [], _ => le_refl _
  | x :: xs, init => le_trans (h init x) (foldl_init_le f h xs (f init x))

/-- A left fold whose step is the identity on every member of the list
returns its initial value. -/
lemma foldl_fix {α : Type} :
    ∀ (l : List α) (f : ℚ → α → ℚ) (init : ℚ), (∀ a x, x ∈ l → f a x = a) →
      l.foldl f init = init
  | [], _, _, _ => rfl
  | x :: xs, f, init, h => by
      rw [List.foldl_cons, h init x (List.mem_cons_self x xs)]
      exact foldl_fix xs f init (fun a y hy => h a y (List.mem_cons_of_mem x hy))

/-!  ###  Claims  -/

/-- C10: compute_potential_snow_interception always returns a
non-negative value; and whenever `snow ≥ 0` and the stratum's
`gap_fraction` lies in `[0,1]`, the returned potential interception
never exceeds `snow`. -/
theorem C10_snow_interception_bounds (NON_VEG : ℤ) (snow : ℚ) (s : CanopyStratum) :
    0 ≤ compute_potential_snow_interception NON_VEG snow s ∧
    (0 ≤ snow → 0 ≤ s.gap_fraction → s.gap_fraction ≤ 1 →
      compute_potential_snow_interception NON_VEG snow s ≤ snow) := by
  unfold compute_potential_snow_interception
  refine ⟨le_max_right _ _, fun hsnow hgap0 hgap1 => ?_⟩
  apply max_le _ hsnow
  split
  · exact le_trans (min_le_left _ _)
      (mul_le_of_le_one_left hsnow (by linarith))
  · exact min_le_left _ _

/-- C10 witness. -/
theorem C10_snow_interception_bounds_witness :
    0 ≤ compute_potential_snow_interception 0 1 ⟨1/2, 1, 1, 0, 1⟩ ∧
    compute_potential_snow_interception 0 1 ⟨1/2, 1, 1, 0, 1⟩ ≤ 1 :=
  ⟨(C10_snow_interception_bounds 0 1 ⟨1/2, 1, 1, 0, 1⟩).1,
   (C10_snow_interception_bounds 0 1 ⟨1/2, 1, 1, 0, 1⟩).2
     (by norm_num) (by norm_num) (by norm_num)⟩

/-- The transmissivity profile used for the C4 failing input. -/
def c4profile : ℤ → ℚ := fun k => (k : ℚ)

/-- C4: failing input for the transmissivity pass.  With
`pscale = 1/1000`, `sat_deficit = 3/10`, `dzsoil = 1/10`, `nsoil = 10`,
and the profile `k ↦ k`, the code (line 436) applies `lround` to the
raw argument `sat_deficit + normal[m]*pscale ≈ 0.3`, getting `0`, and
divides by `dzsoil` afterwards, so every table index is `0` and
`trans = 0`; the claim's formula rounds the quotient
`≈ 3` and gives `trans = 3` (as the pscale ≤ 0 branch of line 442
indeed does with its own argument). -/
theorem C4_trans_rounding_bug :
    transPatch (1/1000) (3/10) (1/10) 10 c4profile = 0 ∧
    transPatch_spec (1/1000) (3/10) (1/10) 10 c4profile = 3 ∧
    transPatch (1/1000) (3/10) (1/10) 10 c4profile ≠
      transPatch_spec (1/1000) (3/10) (1/10) 10 c4profile := by
  norm_num [transPatch, transPatch_spec, transIdx, cLround, cTrunc, c4profile,
    normal, perc, Fin.sum_univ_succ]

/-- C9: with a zero external step (`extstep ≤ EPSILON`) the coupling
loop does not run, and copy-in followed by copy-back is a fixed point
of the patch state: a second zero-step call leaves every patch field
identical to its value after the first call's copy-back. -/
theorem C9_zero_step_idempotent (Z : ℚ) (p : PatchSt) :
    hydro_routing_zero Z (hydro_routing_zero Z p) = hydro_routing_zero Z p := by
  unfold hydro_routing_zero copyBack copyIn
  by_cases h : Z < p.sat_deficit_z <;>
    simp [h, sub_sub_cancel]

/-- C5: when the updated column water exceeds the field capacity,
sub_vertical transfers exactly the excess into the surface store,
leaves `totH2O = capH2O`, moves every solute by the same fraction
`f = (totH2O - capH2O)/totH2O` (preserving each per-species sum
`sfcX + totX`), and puts the water table at the ground surface. -/
theorem C5_sub_vertical_spill (czf : ℚ → ℚ → ℚ → ℚ → ℚ → ℚ) (p : VertP)
    (hcap : 0 ≤ p.capH2O)
    (hex : p.capH2O < p.totH2O + p.infH2O + p.latH2O) :
    (sub_vertical_patch czf p).totH2O = p.capH2O ∧
    (sub_vertical_patch czf p).sfcH2O
      = p.sfcH2O + ((p.totH2O + p.infH2O + p.latH2O) - p.capH2O) ∧
    (sub_vertical_patch czf p).waterz = p.z ∧
    (sub_vertical_patch czf p).sfcNO3
      = p.sfcNO3 + ((p.totH2O + p.infH2O + p.latH2O) - p.capH2O)
          / (p.totH2O + p.infH2O + p.latH2O) * (p.totNO3 + p.infNO3 + p.latNO3) ∧
    (sub_vertical_patch czf p).sfcNO3 + (sub_vertical_patch czf p).totNO3
      = p.sfcNO3 + (p.totNO3 + p.infNO3 + p.latNO3) ∧
    (sub_vertical_patch czf p).sfcNH4 + (sub_vertical_patch czf p).totNH4
      = p.sfcNH4 + (p.totNH4 + p.infNH4 + p.latNH4) ∧
    (sub_vertical_patch czf p).sfcDOC + (sub_vertical_patch czf p).totDOC
      = p.sfcDOC + (p.totDOC + p.infDOC + p.latDOC) ∧
    (sub_vertical_patch czf p).sfcDON + (sub_vertical_patch czf p).totDON
      = p.sfcDON + (p.totDON + p.infDON + p.latDON) := by
  have ht : p.totH2O + p.infH2O + p.latH2O ≠ 0 := by linarith
  unfold sub_vertical_patch
  rw [if_pos hex]
  refine ⟨?_, ?_, rfl, ?_, ?_, ?_, ?_, ?_⟩ <;> field_simp <;> ring

/-- C5 witness: a patch at capacity `1/10` receiving total column water
`3/20`. -/
theorem C5_sub_vertical_spill_witness :
    (sub_vertical_patch (fun _ _ _ _ _ => 0)
        { totH2O := 1/20, totNO3 := 1/100, totNH4 := 0, totDOC := 0, totDON := 0
          infH2O := 1/10, infNO3 := 0, infNH4 := 0, infDOC := 0, infDON := 0
          latH2O := 0, latNO3 := 0, latNH4 := 0, latDOC := 0, latDON := 0
          sfcH2O := 0, sfcNO3 := 0, sfcNH4 := 0, sfcDOC := 0, sfcDON := 0
          waterz := 0, capH2O := 1/10, z := 5, por_0 := 0, por_d := 0
          dzsoil := 0 }).totH2O = 1/10 ∧
    (sub_vertical_patch (fun _ _ _ _ _ => 0)
        { totH2O := 1/20, totNO3 := 1/100, totNH4 := 0, totDOC := 0, totDON := 0
          infH2O := 1/10, infNO3 := 0, infNH4 := 0, infDOC := 0, infDON := 0
          latH2O := 0, latNO3 := 0, latNH4 := 0, latDOC := 0, latDON := 0
          sfcH2O := 0, sfcNO3 := 0, sfcNH4 := 0, sfcDOC := 0, sfcDON := 0
          waterz := 0, capH2O := 1/10, z := 5, por_0 := 0, por_d := 0
          dzsoil := 0 }).waterz = 5 := by
  have h := C5_sub_vertical_spill (fun _ _ _ _ _ => 0)
    { totH2O := 1/20, totNO3 := 1/100, totNH4 := 0, totDOC := 0, totDON := 0
      infH2O := 1/10, infNO3 := 0, infNH4 := 0, infDOC := 0, infDON := 0
      latH2O := 0, latNO3 := 0, latNH4 := 0, latDOC := 0, latDON := 0
      sfcH2O := 0, sfcNO3 := 0, sfcNH4 := 0, sfcDOC := 0, sfcDON := 0
      waterz := 0, capH2O := 1/10, z := 5, por_0 := 0, por_d := 0
      dzsoil := 0 } (by norm_num) (by norm_num)
  exact ⟨h.1, h.2.2.1⟩

/-- C6: the infiltration transfer block removes exactly `delta` from the
surface head, adds it to the infiltration pool, preserves every
per-species sum `sfcX + infX`, and (because the fraction
`afac = delta/sfcH2O` is taken before the water is removed) leaves every
surface concentration unchanged:  `sfcX' * sfcH2O = sfcX * sfcH2O'`
exactly, hence `sfcX'/sfcH2O' = sfcX/sfcH2O` whenever `delta < sfcH2O`. -/
theorem C6_infiltration_transfer (delta h no3 nh4 doc don iH iN3 iN4 iDC iDN : ℚ)
    (hpos : 0 < h) (hd0 : 0 ≤ delta) (hdh : delta ≤ h) :
    (infilTransfer delta h no3 nh4 doc don iH iN3 iN4 iDC iDN).sfcH2O = h - delta ∧
    (infilTransfer delta h no3 nh4 doc don iH iN3 iN4 iDC iDN).infH2O = iH + delta ∧
    (infilTransfer delta h no3 nh4 doc don iH iN3 iN4 iDC iDN).sfcNO3 +
      (infilTransfer delta h no3 nh4 doc don iH iN3 iN4 iDC iDN).infNO3 = no3 + iN3 ∧
    (infilTransfer delta h no3 nh4 doc don iH iN3 iN4 iDC iDN).sfcNH4 +
      (infilTransfer delta h no3 nh4 doc don iH iN3 iN4 iDC iDN).infNH4 = nh4 + iN4 ∧
    (infilTransfer delta h no3 nh4 doc don iH iN3 iN4 iDC iDN).sfcDOC +
      (infilTransfer delta h no3 nh4 doc don iH iN3 iN4 iDC iDN).infDOC = doc + iDC ∧
    (infilTransfer delta h no3 nh4 doc don iH iN3 iN4 iDC iDN).sfcDON +
      (infilTransfer delta h no3 nh4 doc don iH iN3 iN4 iDC iDN).infDON = don + iDN ∧
    (infilTransfer delta h no3 nh4 doc don iH iN3 iN4 iDC iDN).sfcNO3 * h
      = no3 * (infilTransfer delta h no3 nh4 doc don iH iN3 iN4 iDC iDN).sfcH2O ∧
    (infilTransfer delta h no3 nh4 doc don iH iN3 iN4 iDC iDN).sfcNH4 * h
      = nh4 * (infilTransfer delta h no3 nh4 doc don iH iN3 iN4 iDC iDN).sfcH2O ∧
    (infilTransfer delta h no3 nh4 doc don iH iN3 iN4 iDC iDN).sfcDOC * h
      = doc * (infilTransfer delta h no3 nh4 doc don iH iN3 iN4 iDC iDN).sfcH2O ∧
    (infilTransfer delta h no3 nh4 doc don iH iN3 iN4 iDC iDN).sfcDON * h
      = don * (infilTransfer delta h no3 nh4 doc don iH iN3 iN4 iDC iDN).sfcH2O ∧
    (delta < h →
      (infilTransfer delta h no3 nh4 doc don iH iN3 iN4 iDC iDN).sfcNO3 /
        (infilTransfer delta h no3 nh4 doc don iH iN3 iN4 iDC iDN).sfcH2O = no3 / h) := by
  have hne : h ≠ 0 := ne_of_gt hpos
  unfold infilTransfer
  refine ⟨rfl, rfl, by ring, by ring, by ring, by ring, ?_, ?_, ?_, ?_, ?_⟩
  · field_simp; ring
  · field_simp; ring
  · field_simp; ring
  · field_simp; ring
  · intro hlt
    have hne2 : h - delta ≠ 0 := by linarith
    rw [div_eq_div_iff (by simpa using sub_ne_zero.2 (ne_of_lt hlt).symm) hne]
    · field_simp; ring

/-- The Courant reduction of sub_routing never goes below its starting
value `COUMAX / min(tstep, CPLMAX)`. -/
lemma sub_cmax_init_le {n : ℕ} (c : SubIn n) (tstep : ℚ) :
    COUMAX / min tstep CPLMAX ≤ sub_cmax c tstep := by
  unfold sub_cmax
  apply foldl_init_le
  intro a i
  apply foldl_init_le
  intro a' j
  split_ifs with h1 h2
  · exact le_of_lt h2
  · exact le_refl _
  · exact le_refl _

/-- The Courant reduction of sfc_routing never goes below its starting
value `COUMAX / tstep`. -/
lemma sfc_cmax_init_le {n : ℕ} (ctx : SfcCtx n) (tstep : ℚ) (st : SfcSt n) :
    COUMAX / tstep ≤ sfc_cmax ctx tstep st := by
  unfold sfc_cmax
  apply foldl_init_le
  intro a i
  split_ifs with h1 h2
  · exact le_of_lt h2
  · exact le_refl _
  · exact le_refl _

lemma COUMAX_pos : (0:ℚ) < COUMAX := by norm_num [COUMAX]

lemma CPLMAX_pos : (0:ℚ) < CPLMAX := by norm_num [CPLMAX]

/-- C3: for every `tstep > 0` the coupling step written by sub_routing
satisfies `τ ≤ min(tstep, 1800 s)` and `τ · c_max ≤ 0.2` for the
`c_max` reduced over its rate pass; and every internal step of
sfc_routing satisfies `dt ≤ tstep − t` and `dt · c_max ≤ 0.2` at the
moment it is computed. -/
theorem C3_courant_bounds {n m : ℕ} (c : SubIn n) (ctx : SfcCtx m) (st : SfcSt m)
    (tstep t : ℚ) (h : 0 < tstep) :
    sub_substep c tstep ≤ min tstep CPLMAX ∧
    sub_substep c tstep * sub_cmax c tstep ≤ COUMAX ∧
    sfc_dt ctx tstep t st ≤ tstep - t ∧
    sfc_dt ctx tstep t st * sfc_cmax ctx tstep st ≤ COUMAX := by
  have hmin : (0:ℚ) < min tstep CPLMAX := lt_min h CPLMAX_pos
  have hinit : (0:ℚ) < COUMAX / min tstep CPLMAX := div_pos COUMAX_pos hmin
  have hsubpos : 0 < sub_cmax c tstep := lt_of_lt_of_le hinit (sub_cmax_init_le c tstep)
  have hinit2 : (0:ℚ) < COUMAX / tstep := div_pos COUMAX_pos h
  have hsfcpos : 0 < sfc_cmax ctx tstep st :=
    lt_of_lt_of_le hinit2 (sfc_cmax_init_le ctx tstep st)
  have hdiv : COUMAX / sub_cmax c tstep ≤ min tstep CPLMAX := by
    have h2 := div_le_div_of_nonneg_left COUMAX_pos.le hinit (sub_cmax_init_le c tstep)
    rwa [div_div_cancel₀ (ne_of_gt COUMAX_pos)] at h2
  refine ⟨?_, ?_, ?_, ?_⟩
  · exact le_min (min_le_right _ _) (le_trans (min_le_left _ _)
      (hdiv.trans (min_le_right _ _)))
  · exact (le_div_iff₀ hsubpos).1 (min_le_left _ _)
  · exact min_le_right _ _
  · exact (le_div_iff₀ hsfcpos).1 (min_le_left _ _)

/-- A one-patch context with no drainage, shared by the concrete
instantiations below. -/
def exSub : SubIn 1 :=
  { waterz := fun _ => 0, totH2O := fun _ => 0, totNO3 := fun _ => 0
    totNH4 := fun _ => 0, totDOC := fun _ => 0, totDON := fun _ => 0
    psize := fun _ => 1, pscale := fun _ => 0, dzsoil := fun _ => 1
    satdef := fun _ => 0, nsoil := fun _ => 0, transProfile := fun _ _ => 0
    subcnto := fun _ => 0, subndxo := fun _ _ => 0, subdist := fun _ _ => 0
    perimf := fun _ _ => 0, subcnti := fun _ => 0, subndxi := fun _ _ => 0
    Z := 0 }

/-- A one-patch surface context with no water, shared by the concrete
instantiations below. -/
def exCtx : SfcCtx 1 :=
  { retdep := fun _ => 0, sfcknl := fun _ => 0, rootzs := fun _ => 1
    ksatv := fun _ => 0, ksat_0 := fun _ => 0, mz_v := fun _ => 0
    por_0 := fun _ => 0, por_d := fun _ => 0, psiair := fun _ => 0
    sat_deficit_z := fun _ => 0, sfccnti := fun _ => 0
    sfcndxi := fun _ _ => 0, sfcgam := fun _ _ => 0
    canH2O := fun _ => 0, canNO3 := fun _ => 0, canNH4 := fun _ => 0
    canDOC := fun _ => 0, canDON := fun _ => 0
    pow23 := fun x => x, sqrtQ := fun x => x, expQ := fun x => x, Z := 0 }

/-- A one-patch surface state with no water. -/
def exSt : SfcSt 1 :=
  { sfcH2O := fun _ => 0, sfcNO3 := fun _ => 0, sfcNH4 := fun _ => 0
    sfcDOC := fun _ => 0, sfcDON := fun _ => 0
    infH2O := fun _ => 0, infNO3 := fun _ => 0, infNH4 := fun _ => 0
    infDOC := fun _ => 0, infDON := fun _ => 0 }

/-- C3 witness. -/
theorem C3_courant_bounds_witness :
    sub_substep exSub 1 ≤ min 1 CPLMAX ∧
    sub_substep exSub 1 * sub_cmax exSub 1 ≤ COUMAX ∧
    sfc_dt exCtx 1 0 exSt ≤ 1 - 0 ∧
    sfc_dt exCtx 1 0 exSt * sfc_cmax exCtx 1 exSt ≤ COUMAX :=
  C3_courant_bounds exSub exCtx exSt 1 0 one_pos

/-- C7: if no subsurface outflow edge has positive water-table slope,
the coupling step is `min(tstep, 1800 s)` and every lateral delta of
every species is zero. -/
theorem C7_no_gradient_no_flow {n : ℕ} (c : SubIn n) (tstep : ℚ)
    (hZ : 0 ≤ c.Z) (ht : 0 < tstep)
    (hdist : ∀ (i : Fin n) (j : ℕ), 0 ≤ c.subdist i j)
    (hslope : ∀ (i : Fin n) (j : ℕ), j < c.subcnto i →
      c.waterz i ≤ c.waterz (c.subndxo i j)) :
    sub_substep c tstep = min tstep CPLMAX ∧
    ∀ i, latH2O c tstep i = 0 ∧ latNO3 c tstep i = 0 ∧ latNH4 c tstep i = 0 ∧
      latDOC c tstep i = 0 ∧ latDON c tstep i = 0 := by
  have hns : ∀ (i : Fin n) (j : ℕ), j < c.subcnto i → ¬ c.Z < subSlope c i j := by
    intro i j hj
    have hsl : subSlope c i j ≤ 0 :=
      div_nonpos_of_nonpos_of_nonneg (sub_nonpos.2 (hslope i j hj)) (hdist i j)
    exact not_lt.2 (hsl.trans hZ)
  have hdH : ∀ (i : Fin n) (j : ℕ), subDH2Odt c i j = 0 := by
    intro i j
    unfold subDH2Odt
    split_ifs with h1 h2
    · exact absurd h2 (hns i j h1)
    · rfl
    · rfl
  have hout : ∀ i, subOutH2O c i = 0 := by
    intro i
    unfold subOutH2O
    simp [hdH]
  have hcmax : sub_cmax c tstep = COUMAX / min tstep CPLMAX := by
    unfold sub_cmax
    apply foldl_fix
    intro a i _
    apply foldl_fix
    intro a' j hj
    rw [if_neg (hns i j (List.mem_range.1 hj))]
  have hstep : sub_substep c tstep = min tstep CPLMAX := by
    unfold sub_substep
    rw [hcmax, div_div_cancel₀ (ne_of_gt COUMAX_pos)]
    exact min_eq_left (min_le_left _ _)
  have hrte : ∀ (i : Fin n) (j : ℕ), subRtefac c tstep i j = 0 := by
    intro i j
    unfold subRtefac
    split_ifs with h1
    · rw [hdH]; ring
    · rfl
  have hlat : ∀ (totX : Fin n → ℚ) (i : Fin n), latSol c tstep totX i = 0 := by
    intro totX i
    unfold latSol subOutfac
    rw [hout i]
    simp [matGet, hrte]
  refine ⟨hstep, fun i => ⟨?_, ?_, ?_, ?_, ?_⟩⟩
  · unfold latH2O
    rw [hout i]
    simp [matGet, hdH]
  · simpa [latNO3] using hlat c.totNO3 i
  · simpa [latNH4] using hlat c.totNH4 i
  · simpa [latDOC] using hlat c.totDOC i
  · simpa [latDON] using hlat c.totDON i

/-- C7 witness: the one-patch no-drainage context at `tstep = 3600`. -/
theorem C7_no_gradient_no_flow_witness :
    sub_substep exSub 3600 = min 3600 CPLMAX ∧
    ∀ i, latH2O exSub 3600 i = 0 ∧ latNO3 exSub 3600 i = 0 ∧
      latNH4 exSub 3600 i = 0 ∧ latDOC exSub 3600 i = 0 ∧ latDON exSub 3600 i = 0 :=
  C7_no_gradient_no_flow exSub 3600 (le_refl 0) (by norm_num)
    (fun i j => le_refl 0) (fun i j _ => le_refl 0)

/-- Invariant of the coupling loop: starting from a non-negative budget
`t ≤ EPSILON + fuel·τmin`, where each call's substep lies in
`[τmin, remaining budget]`, the loop drives the budget below `EPSILON`
within `fuel` iterations and the substeps sum to the budget consumed. -/
lemma couplingLoop_spec (f : ℚ → ℚ) (tmin : ℚ)
    (hf : ∀ u, EPSILON < u → tmin ≤ f u ∧ f u ≤ u) :
    ∀ (fuel : ℕ) (t : ℚ), 0 ≤ t → t ≤ EPSILON + fuel * tmin →
      (couplingLoop f fuel t).2.1 ≤ EPSILON ∧ 0 ≤ (couplingLoop f fuel t).2.1 ∧
      (couplingLoop f fuel t).1 ≤ fuel ∧
      (couplingLoop f fuel t).2.2 = t - (couplingLoop f fuel t).2.1
  | 0, t, h0, hb => by
      refine ⟨by simpa using hb, h0, Nat.le_refl 0, (sub_self t).symm⟩
  | fuel + 1, t, h0, hb => by
      by_cases hg : EPSILON < t
      · have hft := hf t hg
        have h0' : 0 ≤ t - f t := by linarith [hft.2]
        have hb' : t - f t ≤ EPSILON + fuel * tmin := by
          have hb2 : t ≤ EPSILON + (fuel + 1 : ℕ) * tmin := hb
          push_cast at hb2
          linarith [hft.1]
        have ih := couplingLoop_spec f tmin hf fuel (t - f t) h0' hb'
        simp only [couplingLoop, if_pos hg]
        refine ⟨ih.1, ih.2.1, Nat.succ_le_succ ih.2.2.1, ?_⟩
        rw [ih.2.2.2]
        ring
      · simp only [couplingLoop, if_neg hg]
        exact ⟨not_lt.1 hg, h0, Nat.zero_le _, (sub_self t).symm⟩

/-- C8: if every sub_routing call returns a substep in
`[τmin, remaining budget]` with `τmin > 0`, the driver's coupling loop
`for( t = extstep; t > EPSILON; t -= substep )` finishes within
`⌈extstep/τmin⌉ + 1` iterations (the final remaining budget is at most
`EPSILON`), and the substeps sum to `extstep` to within `EPSILON`. -/
theorem C8_coupling_loop_terminates (f : ℚ → ℚ) (tmin extstep : ℚ)
    (htmin : 0 < tmin) (hext : 0 < extstep)
    (hf : ∀ u, EPSILON < u → tmin ≤ f u ∧ f u ≤ u) :
    (couplingLoop f ((⌈extstep / tmin⌉).toNat + 1) extstep).2.1 ≤ EPSILON ∧
    (couplingLoop f ((⌈extstep / tmin⌉).toNat + 1) extstep).1
      ≤ (⌈extstep / tmin⌉).toNat + 1 ∧
    |(couplingLoop f ((⌈extstep / tmin⌉).toNat + 1) extstep).2.2 - extstep|
      ≤ EPSILON := by
  have hceil : extstep / tmin ≤ ((⌈extstep / tmin⌉).toNat : ℚ) := by
    have h1 : extstep / tmin ≤ (⌈extstep / tmin⌉ : ℚ) := Int.le_ceil _
    have h2 : (0:ℤ) ≤ ⌈extstep / tmin⌉ :=
      Int.ceil_nonneg (le_of_lt (div_pos hext htmin))
    have h3 : ((⌈extstep / tmin⌉).toNat : ℤ) = ⌈extstep / tmin⌉ := Int.toNat_of_nonneg h2
    calc extstep / tmin ≤ (⌈extstep / tmin⌉ : ℚ) := h1
      _ = (((⌈extstep / tmin⌉).toNat : ℤ) : ℚ) := by rw [h3]
      _ = ((⌈extstep / tmin⌉).toNat : ℚ) := by push_cast; ring
  have hb : extstep ≤ EPSILON + ((⌈extstep / tmin⌉).toNat + 1 : ℕ) * tmin := by
    have h4 : extstep ≤ ((⌈extstep / tmin⌉).toNat : ℚ) * tmin :=
      (div_le_iff₀ htmin).1 hceil
    have h5 : (0:ℚ) ≤ EPSILON := by norm_num [EPSILON]
    push_cast
    nlinarith
  have h := couplingLoop_spec f tmin hf ((⌈extstep / tmin⌉).toNat + 1) extstep hext.le hb
  refine ⟨h.1, h.2.2.1, ?_⟩
  rw [h.2.2.2]
  have heq : extstep - (couplingLoop f ((⌈extstep / tmin⌉).toNat + 1) extstep).2.1
      - extstep = -(couplingLoop f ((⌈extstep / tmin⌉).toNat + 1) extstep).2.1 := by
    ring
  rw [heq, abs_neg, abs_of_nonneg h.2.1]
  exact h.1

/-- C8 witness: the oracle that always takes the whole remaining budget,
with `τmin = EPSILON` and `extstep = 1`. -/
theorem C8_coupling_loop_terminates_witness :
    (couplingLoop (fun u => u) ((⌈(1:ℚ) / EPSILON⌉).toNat + 1) 1).2.1 ≤ EPSILON ∧
    (couplingLoop (fun u => u) ((⌈(1:ℚ) / EPSILON⌉).toNat + 1) 1).1
      ≤ (⌈(1:ℚ) / EPSILON⌉).toNat + 1 ∧
    |(couplingLoop (fun u => u) ((⌈(1:ℚ) / EPSILON⌉).toNat + 1) 1).2.2 - 1|
      ≤ EPSILON :=
  C8_coupling_loop_terminates (fun u => u) EPSILON 1 (by norm_num [EPSILON]) one_pos
    (fun u hu => ⟨le_of_lt hu, le_refl u⟩)

/-- C6 witness: `delta = 1/4` out of `sfcH2O = 1/2` with `NO3 = 1/5`. -/
theorem C6_infiltration_transfer_witness :
    (infilTransfer (1/4) (1/2) (1/5) 0 0 0 0 0 0 0 0).sfcH2O = 1/2 - 1/4 ∧
    (infilTransfer (1/4) (1/2) (1/5) 0 0 0 0 0 0 0 0).sfcNO3 /
      (infilTransfer (1/4) (1/2) (1/5) 0 0 0 0 0 0 0 0).sfcH2O = (1/5) / (1/2) := by
  have h := C6_infiltration_transfer (1/4) (1/2) (1/5) 0 0 0 0 0 0 0 0
    (by norm_num) (by norm_num) (by norm_num)
  exact ⟨h.1, h.2.2.2.2.2.2.2.2.2.2 (by norm_num)⟩

/-- C2 failing input: two patches, each the other's unique surface
neighbour, with distinct normalized outflow fractions. -/
def c2dcount : Fin 2 → ℕ := ![1, 1]

/-- Surface neighbour table for the C2 failing input:
patch 0 drains to patch 1, patch 1 drains to patch 0. -/
def c2nbr : Fin 2 → ℕ → Fin 2 := ![fun _ => 1, fun _ => 0]

/-- Normalized outflow fractions for the C2 failing input:
`dfrac[0][0] = 1/3`, `dfrac[1][0] = 1/2`. -/
def c2dfrac : Fin 2 → ℕ → ℚ := ![fun _ => 1/3, fun _ => 1/2]

/-- The inverted surface mesh the code builds on the C2 failing input. -/
def c2mesh : SfcMesh 2 := init_sfc_invert 2 c2dcount c2nbr c2dfrac

/-- C2: counter-evaluation of the serial surface-table inversion.  The
only outflow edge into patch 0 is `1 → 0` (source `i = 1`, weight
`dfrac[1][0] = 1/2`), so the claim requires `sfcndxi[0][0] = 1` and
`sfcgam[0][0] = 1/2`; the code writes the neighbour subscript `j = 0`
and the receiver's own fraction `dfrac[0][0] = 1/3` instead. -/
theorem C2_surface_inversion_bug :
    c2mesh.overflow = false ∧
    c2mesh.sfccnti 0 = 1 ∧
    c2mesh.sfcndxi 0 0 = 0 ∧
    c2mesh.sfcndxi 0 0 ≠ 1 ∧
    c2mesh.sfcgam 0 0 = 1/3 ∧
    c2mesh.sfcgam 0 0 ≠ c2dfrac 1 0 := by
  norm_num [c2mesh, init_sfc_invert, sfc_invert_row, c2dcount, c2nbr, c2dfrac,
    MAXNEIGHBOR, Function.update_apply, List.finRange, List.ofFn, List.foldl,
    Fin.ext_iff]

/-- The conserved quantity of the mass-conservation claim: the basin
total of one species, summed over all patches as surface pool plus
column pool plus infiltration pool. -/
def basinTotal {n : ℕ} (sfc tot inf : Fin n → ℚ) : ℚ :=
  ∑ i, (sfc i + tot i + inf i)

/-- C1 failing input, drainage lists: two equal-area patches, each the
other's unique surface neighbour. -/
def c1dcount : Fin 2 → ℕ := ![1, 1]

/-- C1 failing input, surface neighbour table. -/
def c1nbr : Fin 2 → ℕ → Fin 2 := ![fun _ => 1, fun _ => 0]

/-- C1 failing input, normalized outflow fractions: with a single
neighbour and equal areas the intended `dfrac[i][0]` is exactly `1`. -/
def c1dfrac : Fin 2 → ℕ → ℚ := fun _ _ => 1

/-- The surface inflow tables the code's init builds on the C1 input. -/
def c1mesh : SfcMesh 2 := init_sfc_invert 2 c1dcount c1nbr c1dfrac

/-- C1 failing input, surface-routing context.  Patch 0 heads start one
metre above a zero detention depth, so the only kinematic head is
`hh = 1` and `pow23 := id` agrees with `pow(hh, 2/3)` at every point
where the run evaluates it; infiltration is disabled by `rootzs = 1`
(so `sqrtQ`/`expQ` are never evaluated); canopy rates are the zero-fill
of can_routing. -/
def c1ctx : SfcCtx 2 :=
  { retdep := fun _ => 0
    sfcknl := fun _ => 1/100
    rootzs := fun _ => 1
    ksatv := fun _ => 0, ksat_0 := fun _ => 0, mz_v := fun _ => 0
    por_0 := fun _ => 0, por_d := fun _ => 0, psiair := fun _ => 0
    sat_deficit_z := fun _ => 0
    sfccnti := c1mesh.sfccnti
    sfcndxi := c1mesh.sfcndxi
    sfcgam := c1mesh.sfcgam
    canH2O := fun _ => 0, canNO3 := fun _ => 0, canNH4 := fun _ => 0
    canDOC := fun _ => 0, canDON := fun _ => 0
    pow23 := fun x => x, sqrtQ := fun x => x, expQ := fun x => x
    Z := 1/1000000000 }

/-- C1 failing input, initial surface state: one metre of surface water
on patch 0, none on patch 1, no solutes, empty infiltration pools. -/
def c1st : SfcSt 2 :=
  { sfcH2O := ![1, 0], sfcNO3 := fun _ => 0, sfcNH4 := fun _ => 0
    sfcDOC := fun _ => 0, sfcDON := fun _ => 0
    infH2O := fun _ => 0, infNO3 := fun _ => 0, infNH4 := fun _ => 0
    infDOC := fun _ => 0, infDON := fun _ => 0 }

/-- C1 failing input, column totals (untouched by sfc_routing). -/
def c1tot : Fin 2 → ℚ := fun _ => 0

set_option maxHeartbeats 3200000 in
/-- C1: counter-evaluation.  On the two-patch basin above (canopy input
zero, stream export zero), one sfc_routing component call with
`tstep = 10` raises the basin-wide H2O total from `1` to `11/10`:
because init stored `sfcndxi[0][0] = 0` and `sfcgam[0][0] = dfrac[0][0]`,
patch 0's inflow list names patch 0 itself as its source, so patch 0's
outflow cancels against itself while patch 1 still receives it. -/
theorem C1_mass_not_conserved :
    c1mesh.overflow = false ∧
    basinTotal c1st.sfcH2O c1tot c1st.infH2O = 1 ∧
    basinTotal ((sfc_routing c1ctx 2 10 c1st).sfcH2O) c1tot
      ((sfc_routing c1ctx 2 10 c1st).infH2O) = 11/10 ∧
    basinTotal ((sfc_routing c1ctx 2 10 c1st).sfcH2O) c1tot
      ((sfc_routing c1ctx 2 10 c1st).infH2O)
      ≠ basinTotal c1st.sfcH2O c1tot c1st.infH2O := by
  norm_num [sfc_routing, sfcLoop, sfcStep, sfcPatchNew, sfc_dt, sfc_cmax,
    sfcSum, sfcOutH2O, sfcOutSol, sfcVel, sfcHH, infilTransfer, vecGet,
    basinTotal, c1ctx, c1st, c1tot, c1mesh, init_sfc_invert, sfc_invert_row,
    c1dcount, c1nbr, c1dfrac, MAXNEIGHBOR, EPSILON, COUMAX,
    Function.update_apply, List.finRange, List.ofFn, List.foldl, Fin.ext_iff,
    Finset.sum_range_succ, Finset.sum_range_zero, Fin.sum_univ_two,
    Fin.mk_zero, Fin.mk_one]

end RHESSys
